import Mathlib

/-!
Shallow embedding of the glam-store HTTP backend (src/index.js): a small
Express server exposing CRUD over a `Product` Mongo collection, a login
endpoint, a shared-secret admin gate, and a Cloudinary upload pass-through.

JavaScript strings that may be `undefined` are modelled as `Option String`;
JS truthiness on such values (`undefined` and `""` are falsy) is `jsTruthy`.
The Mongo store is modelled as a `List Product`; MongoDB rejects a
malformed `_id` (not a 24-character hex string) with a `CastError`, which
the handlers' `catch` blocks turn into a 500 response, so the store
operations return `Except CastError _`.
-/

/-- JS truthiness of a possibly-undefined string: `undefined` and `""` are
falsy, every other string is truthy. -/
def jsTruthy : Option String → Bool
  | none => false
  | some s => s ≠ ""

/-- JS `a || b` on possibly-undefined strings: yields `a` when `a` is
truthy, otherwise `b`.  Models `req.headers['x-admin-token'] || req.query.token`. -/
def jsOrStr (a b : Option String) : Option String :=
  if jsTruthy a then a else b

/-- The configured admin token,
`const ADMIN_TOKEN = process.env.ADMIN_TOKEN || 'changeme'` (line 22),
with the JS `||` default applied to the possibly-undefined environment
value. -/
def adminTokenConfig (env : Option String) : String :=
  match env with
  | none => "changeme"
  | some s => if s = "" then "changeme" else s

/-- A persisted product record (the Mongoose `productSchema`, lines 40-48).
`id` is the store-assigned `_id`; optional schema fields without defaults
are `Option`; `price` defaults to 0 and `createdAt` to the creation time,
both applied at insertion. -/
structure Product where
  id : String
  name : String
  brand : Option String
  size : Option String
  description : Option String
  price : Int
  imageUrl : Option String
  createdAt : Nat
deriving Repr, DecidableEq

/-- JSON response bodies the server can emit. -/
inductive Body where
  | okError (error : String)
  | err (error : String)
  | prod (p : Product)
  | prodList (ps : List Product)
  | token (tok : String)
  | okTrue
  | upload (url publicId : String)
deriving Repr, DecidableEq

/-- An HTTP response: status code plus JSON body. -/
structure Response where
  status : Nat
  body : Body
deriving Repr, DecidableEq

/-- The `checkAdmin` middleware (lines 62-68): reads the candidate token as
`req.headers['x-admin-token'] || req.query.token`, answers
`401 { ok: false, error: 'Unauthorized' }` when it is falsy or differs from
the admin token, and otherwise yields `none` meaning `next()` is called. -/
def checkAdmin (adminToken : String) (hdr q : Option String) : Option Response :=
  match jsOrStr hdr q with
  | none => some ⟨401, .okError "Unauthorized"⟩
  | some t =>
    if t = "" then some ⟨401, .okError "Unauthorized"⟩
    else if t ≠ adminToken then some ⟨401, .okError "Unauthorized"⟩
    else none

/-- An admin-guarded route: the gate either short-circuits with its 401
response, leaving the state untouched, or the wrapped handler runs.  The
state type is abstract so the same wrapper covers the product routes
(state = the store) and the upload route (state = the staged tmp files). -/
def guarded {σ : Type} (adminToken : String) (hdr q : Option String)
    (handler : σ → Response × σ) (s : σ) : Response × σ :=
  match checkAdmin adminToken hdr q with
  | some resp => (resp, s)
  | none => handler s

/-- The `POST /api/login` handler (lines 72-79): 400 when `password` is
falsy, 401 when it differs from `ADMIN_PASSWORD` (possibly undefined),
otherwise `200 { ok: true, token: ADMIN_TOKEN }`. -/
def loginHandler (adminPassword : Option String) (adminToken : String)
    (password : Option String) : Response :=
  match password with
  | none => ⟨400, .okError "Missing password"⟩
  | some pw =>
    if pw = "" then ⟨400, .okError "Missing password"⟩
    else if adminPassword ≠ some pw then ⟨401, .okError "Wrong password"⟩
    else ⟨200, .token adminToken⟩

/-- The login route seen as a transition on the store: the handler never
touches persisted state. -/
def loginRoute (adminPassword : Option String) (adminToken : String)
    (password : Option String) (store : List Product) :
    Response × List Product :=
  (loginHandler adminPassword adminToken password, store)

/-- A MongoDB ObjectId in string form: exactly 24 hexadecimal characters.
Mongoose casts `req.params.id` to an ObjectId and rejects anything else
with a `CastError`. -/
def validObjectId (s : String) : Bool :=
  s.length = 24 && s.toList.all (fun c => c.isDigit ||
    ('a' ≤ c && c ≤ 'f') || ('A' ≤ c && c ≤ 'F'))

/-- The store-level failure the handlers can catch: Mongoose's `CastError`
on a malformed identifier. -/
inductive CastError where
  | castError
deriving Repr, DecidableEq

/-- Models `Product.findById(id)` on the store: rejects a malformed id
with `CastError`, otherwise returns the first record whose `_id` matches,
or `none`. -/
def findById (id : String) (store : List Product) :
    Except CastError (Option Product) :=
  if validObjectId id then .ok (store.find? (fun p => p.id = id))
  else .error .castError

/-- The fields a request body may carry for create/update:
`{ name, brand, size, description, price, imageUrl }` (line 108); each is
absent or present. -/
structure ProductBody where
  name : Option String
  brand : Option String
  size : Option String
  description : Option String
  price : Option Int
  imageUrl : Option String
deriving Repr, DecidableEq

/-- Applying an update body to an existing record, as
`findByIdAndUpdate(id, req.body)` does: each field present in the body
overwrites the stored field, each absent field is left untouched; `_id`
and `createdAt` are not in the body and stay as they were. -/
def applyUpdate (u : ProductBody) (p : Product) : Product :=
  { p with
    name := u.name.getD p.name
    brand := match u.brand with | some b => some b | none => p.brand
    size := match u.size with | some s => some s | none => p.size
    description := match u.description with | some d => some d | none => p.description
    price := u.price.getD p.price
    imageUrl := match u.imageUrl with | some i => some i | none => p.imageUrl }

/-- Models `Product.findByIdAndUpdate(id, body, { new: true })`: `CastError` on a
malformed id; otherwise updates the matching record in place and returns
the post-update document, or `none` when no record matches. -/
def findByIdAndUpdate (id : String) (u : ProductBody) (store : List Product) :
    Except CastError (Option Product × List Product) :=
  if validObjectId id then
    match store.find? (fun p => p.id = id) with
    | none => .ok (none, store)
    | some p =>
      .ok (some (applyUpdate u p),
        store.map (fun q => if q.id = id then applyUpdate u p else q))
  else .error .castError

/-- Models `Product.findByIdAndDelete(id)`: `CastError` on a malformed id;
otherwise removes the matching record and returns it, or `none` when no
record matches. -/
def findByIdAndDelete (id : String) (store : List Product) :
    Except CastError (Option Product × List Product) :=
  if validObjectId id then
    match store.find? (fun p => p.id = id) with
    | none => .ok (none, store)
    | some p => .ok (some p, store.filter (fun q => q.id ≠ id))
  else .error .castError

/-- Descending `createdAt` order used by the list handler's
`.sort({ createdAt: -1 })`. -/
def createdGE (a b : Product) : Prop :=
  b.createdAt ≤ a.createdAt

instance : DecidableRel createdGE := fun a b =>
  inferInstanceAs (Decidable (b.createdAt ≤ a.createdAt))

instance : IsTotal Product createdGE :=
  ⟨fun a b => Nat.le_total b.createdAt a.createdAt⟩

instance : IsTrans Product createdGE :=
  ⟨fun _ _ _ h1 h2 => Nat.le_trans h2 h1⟩

/-- Models `Product.find().sort({ createdAt: -1 })`: all records, most
recently created first. -/
def findSortedDesc (store : List Product) : List Product :=
  store.insertionSort createdGE

/-- The `GET /api/products` handler (lines 82-90): every record, newest
first, with status 200. -/
def getProductsHandler (store : List Product) : Response :=
  ⟨200, .prodList (findSortedDesc store)⟩

/-- The `GET /api/products/:id` handler (lines 93-102): 404 when
`findById` returns nothing, 500 when it throws (malformed id), otherwise
the record with status 200.  A read changes no state. -/
def getProductHandler (id : String) (store : List Product) : Response :=
  match findById id store with
  | .error _ => ⟨500, .err "Server error"⟩
  | .ok none => ⟨404, .err "Not found"⟩
  | .ok (some p) => ⟨200, .prod p⟩

/-- The `POST /api/products` handler body (lines 106-117), after the admin
gate: 400 when `name` is falsy; otherwise a new record is built from the
submitted fields (price defaulting to 0, `createdAt` to the current time,
`_id` assigned by the store) and appended, and the record is returned. -/
def postProductHandler (body : ProductBody) (now : Nat) (newId : String)
    (store : List Product) : Response × List Product :=
  match body.name with
  | none => (⟨400, .err "Name is required"⟩, store)
  | some n =>
    if n = "" then (⟨400, .err "Name is required"⟩, store)
    else
      let p : Product :=
        { id := newId, name := n, brand := body.brand, size := body.size,
          description := body.description, price := body.price.getD 0,
          imageUrl := body.imageUrl, createdAt := now }
      (⟨200, .prod p⟩, store ++ [p])

/-- The `PUT /api/products/:id` handler body (lines 120-129), after the
admin gate: 500 on a store `CastError`, 404 when no record matches,
otherwise 200 with the post-update document. -/
def putProductHandler (id : String) (u : ProductBody)
    (store : List Product) : Response × List Product :=
  match findByIdAndUpdate id u store with
  | .error _ => (⟨500, .err "Server error"⟩, store)
  | .ok (none, s) => (⟨404, .err "Not found"⟩, s)
  | .ok (some p, s) => (⟨200, .prod p⟩, s)

/-- The `DELETE /api/products/:id` handler body (lines 132-141), after the
admin gate: 500 on a store `CastError`, 404 when no record matches,
otherwise `200 { ok: true }`. -/
def deleteProductHandler (id : String) (store : List Product) :
    Response × List Product :=
  match findByIdAndDelete id store with
  | .error _ => (⟨500, .err "Server error"⟩, store)
  | .ok (none, s) => (⟨404, .err "Not found"⟩, s)
  | .ok (some _, s) => (⟨200, .okTrue⟩, s)

/-- Result of a successful `cloudinary.uploader.upload` call. -/
structure UploadResult where
  url : String
  publicId : String
deriving Repr, DecidableEq

/-- The `POST /api/upload` handler body (lines 147-165), after the admin
gate, as a transition on the set of staged tmp files: 400 when no file was
attached; on a successful Cloudinary call the tmp file is unlinked and the
hosted URL returned; when the call throws, the `catch` answers 500 and no
`unlinkSync` runs, so the staged file stays. -/
def uploadHandler (file : Option String)
    (cloudResult : Except String UploadResult)
    (tmpFiles : List String) : Response × List String :=
  match file with
  | none => (⟨400, .err "No file uploaded"⟩, tmpFiles)
  | some path =>
    match cloudResult with
    | .ok r => (⟨200, .upload r.url r.publicId⟩, tmpFiles.erase path)
    | .error _ => (⟨500, .err "Upload failed"⟩, tmpFiles)

/-- The guarded mutation/upload routes as registered (lines 106, 120, 132,
147): `checkAdmin` wraps the handler body. -/
def postProductRoute (adminToken : String) (hdr q : Option String)
    (body : ProductBody) (now : Nat) (newId : String)
    (store : List Product) : Response × List Product :=
  guarded adminToken hdr q (postProductHandler body now newId) store

/-- The guarded `PUT /api/products/:id` route. -/
def putProductRoute (adminToken : String) (hdr q : Option String)
    (id : String) (u : ProductBody) (store : List Product) :
    Response × List Product :=
  guarded adminToken hdr q (putProductHandler id u) store

/-- The guarded `DELETE /api/products/:id` route. -/
def deleteProductRoute (adminToken : String) (hdr q : Option String)
    (id : String) (store : List Product) : Response × List Product :=
  guarded adminToken hdr q (deleteProductHandler id) store

/-- The guarded `POST /api/upload` route. -/
def uploadRoute (adminToken : String) (hdr q : Option String)
    (file : Option String) (cloudResult : Except String UploadResult)
    (tmpFiles : List String) : Response × List String :=
  guarded adminToken hdr q (uploadHandler file cloudResult) tmpFiles

/-- Helper: after replacing every record whose id matches by the updated
record, the first match found is the updated record. -/
theorem find?_map_ite (id : String) (w : Product) (hid : w.id = id) :
    ∀ (store : List Product) (p : Product),
      store.find? (fun r => r.id = id) = some p →
      (store.map (fun q => if q.id = id then w else q)).find?
        (fun r => r.id = id) = some w := by
  intro store
  induction store with
  | nil => intro p hf; simp at hf
  | cons a l ih =>
    intro p hf
    by_cases ha : a.id = id
    · simp [ha, hid]
    · rw [List.find?_cons_of_neg _ (by simp [ha])] at hf
      simpa [ha] using ih p hf

/-- C10 (confirmed): when the admin-token environment value is absent, the
configured admin token is the literal `'changeme'`, a non-empty known
default. -/
theorem c10_default_admin_token :
    adminTokenConfig none = "changeme" ∧ adminTokenConfig none ≠ "" := by
  constructor
  · rfl
  · decide

/-- C9 (confirmed): a login request whose password field is present but
equal to the empty string is answered 400 (missing password), not 401,
because the handler tests the password by truthiness. -/
theorem c9_empty_password_400 (adminPassword : Option String)
    (adminToken : String) :
    loginHandler adminPassword adminToken (some "") =
      ⟨400, .okError "Missing password"⟩ := by
  simp [loginHandler]

/-- C8 (confirmed): a present-but-empty admin header does not take
precedence: the extracted candidate is then the query value, and the gate
behaves exactly as if the header were absent. -/
theorem c8_empty_header_consults_query (adminToken : String)
    (q : Option String) :
    jsOrStr (some "") q = q ∧
    checkAdmin adminToken (some "") q = checkAdmin adminToken none q := by
  constructor
  · simp [jsOrStr, jsTruthy]
  · simp [checkAdmin, jsOrStr, jsTruthy]

/-- C6 counterexample: a login request with the password field present but
empty (admin password configured as `"secret"`) is answered 400, where the
claim requires 401 for any present-but-wrong password. -/
theorem c6_refuted_empty_password :
    loginHandler (some "secret") "tok1" (some "") =
      ⟨400, .okError "Missing password"⟩ ∧
    (loginHandler (some "secret") "tok1" (some "")).status ≠ 401 := by
  constructor
  · simp [loginHandler]
  · simp [loginHandler]

/-- C6 (amended): a login request with the password absent or empty is
answered 400; a non-empty password differing from the configured admin
password is answered 401; a non-empty password equal to it is answered 200
carrying exactly the configured token; no outcome changes the store. -/
theorem c6_login_contract (adminPassword : Option String)
    (adminToken : String) (password : Option String)
    (store : List Product) :
    (loginRoute adminPassword adminToken password store).2 = store ∧
    (password = none ∨ password = some "" →
      loginHandler adminPassword adminToken password =
        ⟨400, .okError "Missing password"⟩) ∧
    (∀ s, password = some s → s ≠ "" → adminPassword ≠ some s →
      loginHandler adminPassword adminToken password =
        ⟨401, .okError "Wrong password"⟩) ∧
    (∀ s, password = some s → s ≠ "" → adminPassword = some s →
      loginHandler adminPassword adminToken password =
        ⟨200, .token adminToken⟩) := by
  refine ⟨rfl, ?_, ?_, ?_⟩
  · rintro (rfl | rfl) <;> simp [loginHandler]
  · rintro s rfl hs hne
    simp [loginHandler, hs, hne]
  · rintro s rfl hs heq
    simp [loginHandler, hs, heq]

/-- Witness for C6: the concrete correct login. -/
theorem c6_login_contract_witness :
    loginHandler (some "pw1") "tok1" (some "pw1") = ⟨200, .token "tok1"⟩ :=
  (c6_login_contract (some "pw1") "tok1" (some "pw1") []).2.2.2 "pw1" rfl
    (by decide) rfl

/-- C7 (confirmed): the list operation answers 200 with all persisted
records ordered by `createdAt` descending, and the empty store yields an
empty list, not an error. -/
theorem c7_list_sorted_desc (store : List Product) :
    getProductsHandler store = ⟨200, .prodList (findSortedDesc store)⟩ ∧
    (findSortedDesc store).Perm store ∧
    List.Sorted createdGE (findSortedDesc store) ∧
    getProductsHandler [] = ⟨200, .prodList []⟩ := by
  refine ⟨rfl, ?_, ?_, rfl⟩
  · exact List.perm_insertionSort createdGE store
  · exact List.sorted_insertionSort createdGE store

/-- C1 counterexample: with the admin token `"changeme"`, a create request
carrying an empty `x-admin-token` header together with the correct query
token runs the handler (200, record persisted), whereas the claim's
header-takes-precedence-when-present rule says the empty header is the
candidate, so it must be answered 401 with no state change. -/
theorem c1_refuted_empty_header :
    (postProductRoute "changeme" (some "") (some "changeme")
        ⟨some "x", none, none, none, none, none⟩ 1
        "0123456789abcdef01234567" []).1.status = 200 ∧
    (postProductRoute "changeme" (some "") (some "changeme")
        ⟨some "x", none, none, none, none, none⟩ 1
        "0123456789abcdef01234567" []).2 ≠ [] := by
  decide

/-- C1 (amended): the gate picks the candidate by JS truthiness — the
header value when present and non-empty, otherwise the query value; a
candidate that is absent, empty, or different from the admin token yields
`401 { ok: false, error: 'Unauthorized' }` with no handler run and no
state change, and a non-empty candidate equal to the admin token runs the
wrapped handler unchanged. -/
theorem c1_gate_contract (σ : Type) (handler : σ → Response × σ)
    (adminToken : String) (hdr q : Option String) (s : σ) :
    (∀ t, jsOrStr hdr q = some t → t ≠ "" → t = adminToken →
      guarded adminToken hdr q handler s = handler s) ∧
    ((∀ t, jsOrStr hdr q = some t → t = "" ∨ t ≠ adminToken) →
      guarded adminToken hdr q handler s =
        (⟨401, .okError "Unauthorized"⟩, s)) := by
  constructor
  · intro t ht hne heq
    subst heq
    simp [guarded, checkAdmin, ht, hne]
  · intro h
    rcases hj : jsOrStr hdr q with _ | t
    · simp [guarded, checkAdmin, hj]
    · rcases h t hj with h1 | h1
      · simp [guarded, checkAdmin, hj, h1]
      · by_cases he : t = ""
        · simp [guarded, checkAdmin, hj, he]
        · simp [guarded, checkAdmin, hj, he, h1]

/-- Witness for C1: a correct header token lets the create handler run. -/
theorem c1_gate_contract_witness :
    guarded "changeme" (some "changeme") none
        (postProductHandler ⟨some "x", none, none, none, none, none⟩ 1
          "0123456789abcdef01234567") [] =
      postProductHandler ⟨some "x", none, none, none, none, none⟩ 1
        "0123456789abcdef01234567" [] :=
  (c1_gate_contract (List Product)
      (postProductHandler ⟨some "x", none, none, none, none, none⟩ 1
        "0123456789abcdef01234567")
      "changeme" (some "changeme") none []).1
    "changeme" (by decide) (by decide) rfl

/-- C2 counterexample: the malformed identifier `"zzz"` (rejected by the
store's ObjectId cast) matches no record, yet get/update/delete answer
500, where the claim requires 404 and never 500. -/
theorem c2_refuted_malformed_id :
    getProductHandler "zzz" [] = ⟨500, .err "Server error"⟩ ∧
    putProductHandler "zzz" ⟨none, none, none, none, none, none⟩ [] =
      (⟨500, .err "Server error"⟩, []) ∧
    deleteProductHandler "zzz" [] = (⟨500, .err "Server error"⟩, []) ∧
    (getProductHandler "zzz" []).status ≠ 404 := by
  decide

/-- C2 (amended): a well-formed identifier matching no persisted record
yields 404 from get/update/delete with the store unchanged; an identifier
malformed in a way the store rejects yields 500 (the generic store-failure
response), not 404, also with the store unchanged. -/
theorem c2_not_found_contract (id : String) (u : ProductBody)
    (store : List Product)
    (hnone : store.find? (fun p => p.id = id) = none) :
    (validObjectId id = true →
      getProductHandler id store = ⟨404, .err "Not found"⟩ ∧
      putProductHandler id u store = (⟨404, .err "Not found"⟩, store) ∧
      deleteProductHandler id store = (⟨404, .err "Not found"⟩, store)) ∧
    (validObjectId id = false →
      getProductHandler id store = ⟨500, .err "Server error"⟩ ∧
      putProductHandler id u store = (⟨500, .err "Server error"⟩, store) ∧
      deleteProductHandler id store = (⟨500, .err "Server error"⟩, store)) := by
  constructor
  · intro hv
    refine ⟨?_, ?_, ?_⟩ <;>
      simp [getProductHandler, putProductHandler, deleteProductHandler,
        findById, findByIdAndUpdate, findByIdAndDelete, hv, hnone]
  · intro hv
    refine ⟨?_, ?_, ?_⟩ <;>
      simp [getProductHandler, putProductHandler, deleteProductHandler,
        findById, findByIdAndUpdate, findByIdAndDelete, hv]

/-- Witness for C2: a well-formed ObjectId against the empty store. -/
theorem c2_not_found_contract_witness :
    getProductHandler "0123456789abcdef01234567" [] =
      ⟨404, .err "Not found"⟩ ∧
    putProductHandler "0123456789abcdef01234567"
        ⟨none, none, none, none, none, none⟩ [] =
      (⟨404, .err "Not found"⟩, []) ∧
    deleteProductHandler "0123456789abcdef01234567" [] =
      (⟨404, .err "Not found"⟩, []) :=
  (c2_not_found_contract "0123456789abcdef01234567"
      ⟨none, none, none, none, none, none⟩ [] rfl).1 (by decide)

/-- C3 (confirmed): an authorized update against an existing record
overwrites exactly the supplied fields, keeps every omitted field (and the
identifier and `createdAt`) at its prior value, answers 200 with the
post-update record — which an immediate get also returns — and answers 404
when no record matches. -/
theorem c3_update_merge (id : String) (u : ProductBody)
    (store : List Product) (p : Product)
    (hv : validObjectId id = true)
    (hf : store.find? (fun r => r.id = id) = some p) :
    putProductHandler id u store =
      (⟨200, .prod (applyUpdate u p)⟩,
        store.map (fun q => if q.id = id then applyUpdate u p else q)) ∧
    getProductHandler id (putProductHandler id u store).2 =
      ⟨200, .prod (applyUpdate u p)⟩ ∧
    (∀ v, u.name = some v → (applyUpdate u p).name = v) ∧
    (∀ v, u.brand = some v → (applyUpdate u p).brand = some v) ∧
    (∀ v, u.size = some v → (applyUpdate u p).size = some v) ∧
    (∀ v, u.description = some v → (applyUpdate u p).description = some v) ∧
    (∀ v, u.price = some v → (applyUpdate u p).price = v) ∧
    (∀ v, u.imageUrl = some v → (applyUpdate u p).imageUrl = some v) ∧
    (u.name = none → (applyUpdate u p).name = p.name) ∧
    (u.brand = none → (applyUpdate u p).brand = p.brand) ∧
    (u.size = none → (applyUpdate u p).size = p.size) ∧
    (u.description = none → (applyUpdate u p).description = p.description) ∧
    (u.price = none → (applyUpdate u p).price = p.price) ∧
    (u.imageUrl = none → (applyUpdate u p).imageUrl = p.imageUrl) ∧
    (applyUpdate u p).id = p.id ∧
    (applyUpdate u p).createdAt = p.createdAt ∧
    (∀ s2 : List Product, s2.find? (fun r => r.id = id) = none →
      putProductHandler id u s2 = (⟨404, .err "Not found"⟩, s2)) := by
  have hpid : p.id = id := by simpa using List.find?_some hf
  have hupd : (applyUpdate u p).id = id := hpid
  have h1 : putProductHandler id u store =
      (⟨200, .prod (applyUpdate u p)⟩,
        store.map (fun q => if q.id = id then applyUpdate u p else q)) := by
    simp [putProductHandler, findByIdAndUpdate, hv, hf]
  refine ⟨h1, ?_, ?_, ?_, ?_, ?_, ?_, ?_, ?_, ?_, ?_, ?_, ?_, ?_, rfl, rfl,
    ?_⟩
  · rw [h1]
    have hm := find?_map_ite id (applyUpdate u p) hupd store p hf
    simp [getProductHandler, findById, hv, hm]
  · intro v hv'
    simp [applyUpdate, hv']
  · intro v hv'
    simp [applyUpdate, hv']
  · intro v hv'
    simp [applyUpdate, hv']
  · intro v hv'
    simp [applyUpdate, hv']
  · intro v hv'
    simp [applyUpdate, hv']
  · intro v hv'
    simp [applyUpdate, hv']
  · intro hn
    simp [applyUpdate, hn]
  · intro hn
    simp [applyUpdate, hn]
  · intro hn
    simp [applyUpdate, hn]
  · intro hn
    simp [applyUpdate, hn]
  · intro hn
    simp [applyUpdate, hn]
  · intro hn
    simp [applyUpdate, hn]
  · intro s2 h2
    simp [putProductHandler, findByIdAndUpdate, hv, h2]

/-- Witness for C3: a name-only update keeps brand, price and `createdAt`. -/
theorem c3_update_merge_witness :
    putProductHandler "0123456789abcdef01234567"
        ⟨some "New", none, none, none, none, none⟩
        [⟨"0123456789abcdef01234567", "Old", some "B", none, none, 5, none,
          10⟩] =
      (⟨200, .prod ⟨"0123456789abcdef01234567", "New", some "B", none, none,
          5, none, 10⟩⟩,
        [⟨"0123456789abcdef01234567", "New", some "B", none, none, 5, none,
          10⟩]) := by
  have h := (c3_update_merge "0123456789abcdef01234567"
      ⟨some "New", none, none, none, none, none⟩
      [⟨"0123456789abcdef01234567", "Old", some "B", none, none, 5, none,
        10⟩]
      ⟨"0123456789abcdef01234567", "Old", some "B", none, none, 5, none, 10⟩
      (by decide) (by decide)).1
  exact h.trans (by decide)

/-- C4 (confirmed): an authorized create with a falsy (absent or empty)
name answers 400 and leaves the store exactly as it was; with a non-empty
name it persists a new record carrying the submitted fields verbatim,
price defaulting to 0 and `createdAt` set to the current time, and answers
200 with that full record. -/
theorem c4_create_contract (body : ProductBody) (now : Nat) (newId : String)
    (store : List Product) :
    (jsTruthy body.name = false →
      postProductHandler body now newId store =
        (⟨400, .err "Name is required"⟩, store)) ∧
    (∀ n, body.name = some n → n ≠ "" →
      postProductHandler body now newId store =
        (⟨200, .prod ⟨newId, n, body.brand, body.size, body.description,
            body.price.getD 0, body.imageUrl, now⟩⟩,
          store ++ [⟨newId, n, body.brand, body.size, body.description,
            body.price.getD 0, body.imageUrl, now⟩])) := by
  constructor
  · intro hfalsy
    rcases hb : body.name with _ | n
    · simp [postProductHandler, hb]
    · rw [hb] at hfalsy
      simp [jsTruthy] at hfalsy
      simp [postProductHandler, hb, hfalsy]
  · intro n hb hn
    simp [postProductHandler, hb, hn]

/-- Witness for C4: a create with name and brand only. -/
theorem c4_create_contract_witness :
    postProductHandler
        ⟨some "Lip Gloss", some "GlamCo", none, none, none, none⟩ 7
        "0123456789abcdef01234567" [] =
      (⟨200, .prod ⟨"0123456789abcdef01234567", "Lip Gloss", some "GlamCo",
          none, none, 0, none, 7⟩⟩,
        [⟨"0123456789abcdef01234567", "Lip Gloss", some "GlamCo", none,
          none, 0, none, 7⟩]) :=
  (c4_create_contract
      ⟨some "Lip Gloss", some "GlamCo", none, none, none, none⟩ 7
      "0123456789abcdef01234567" []).2 "Lip Gloss" rfl (by decide)

/-- C5 (code bug per the spec's stated cleanup obligation): on an
authorized upload whose Cloudinary call fails, the handler's catch answers
500 without running `unlinkSync`, so the staged tmp file stays behind; on
the success path the file is removed.  The spec requires removal on both
outcomes. -/
theorem c5_cleanup_leak_on_failure :
    uploadRoute "changeme" (some "changeme") none (some "tmp/f1")
        (.error "cloud down") ["tmp/f1"] =
      (⟨500, .err "Upload failed"⟩, ["tmp/f1"]) ∧
    uploadRoute "changeme" (some "changeme") none (some "tmp/f1")
        (.ok ⟨"https://res.example/img.png", "pid1"⟩) ["tmp/f1"] =
      (⟨200, .upload "https://res.example/img.png" "pid1"⟩, []) := by
  decide
